import Mathlib

/-!
The daemon control client of nydussdk.

A shallow embedding of `pkg/nydussdk/client.go`.

Conventions of the embedding.

* Go byte slices and Go strings are both byte sequences; both are Lean `String`s here and
  the conversion `string(content)` is the identity.
* A Go `error` result is an `Option Err` (`none` is `nil`); a Go `(value, error)` result is
  an `Except Err value`.
* Everything the client gets from outside (the file system, `net/http`, `encoding/json`) is a
  field of `World`.  An operation returns its Go result together with the list of requests
  it handed to the HTTP transport, in order.
-/

namespace Nydussdk

/-! ## Errors -/

/-- Go error values as the client builds them. -/
inductive Err where
  /-- an error produced by a library call (`os`, `net/http`, `encoding/json`, `io`) -/
  | lib (msg : String)
  /-- the result of `errors.New`, `errors.Errorf` or `fmt.Errorf`, already formatted -/
  | plain (msg : String)
  /-- the result of `errors.Wrap(cause, msg)` or `errors.Wrapf(cause, ...)` -/
  | wrapped (cause : Err) (msg : String)
  deriving DecidableEq, Repr

/-- The text `err.Error()`: a wrapped error prints its message, a colon, and its cause. -/
def Err.text : Err → String
  | .lib m => m
  | .plain m => m
  | .wrapped c m => m ++ ": " ++ c.text

/-! ## Constants of `client.go` -/

def endpointDaemonInfo : String := "/api/v1/daemon"
def endpointMount : String := "/api/v1/mount"
def endpointMetrics : String := "/api/v1/metrics"
def contentType : String := "application/json"

/-- The constant `http.StatusNoContent`. -/
def StatusNoContent : Int := 204

def MethodGet : String := "GET"
def MethodPost : String := "POST"
def MethodPut : String := "PUT"
def MethodDelete : String := "DELETE"

/-- The verb `%d` of `fmt` applied to a Go `int`. -/
def fmtD (n : Int) : String := toString n

/-! ## Payload types of the `model` and `config` packages -/

/-- Modelled from the spec: `model.ErrorMessage` is declared outside `client.go`; the spec
gives its shape as `{code, message}`, and `handleMountError` prints both fields with `%s`. -/
structure ErrorMessage where
  Code : String
  Message : String
  deriving DecidableEq, Repr

/-- Modelled from the spec: `config.DaemonConfig` is declared outside `client.go`; the client
inspects only its domain identifier. -/
structure DaemonConfig where
  DomainID : String
  deriving DecidableEq, Repr

/-- Modelled from the spec: `model.MountRequest` is declared outside `client.go`; it pairs a
bootstrap reference with the embedded daemon configuration content. -/
structure MountRequest where
  Source : String
  Config : String
  deriving DecidableEq, Repr

/-- Modelled from the spec: `model.NewMountRequest(bootstrap, config)`. -/
def NewMountRequest (source config : String) : MountRequest :=
  ⟨source, config⟩

/-! ## HTTP values -/

/-- A response body as a reader: the bytes it yields, then end of file or a read error. -/
structure Body where
  data : String
  readErr : Option Err
  deriving DecidableEq, Repr

structure Response where
  StatusCode : Int
  Body : Body
  deriving DecidableEq, Repr

structure Request where
  Method : String
  URL : String
  Header : List (String × String)
  Body : Option String
  deriving DecidableEq, Repr

/-- The function `io.ReadAll`: all the bytes when the reader ends cleanly, else its error. -/
def ioReadAll (r : Body) : Except Err String :=
  match r.readErr with
  | none => .ok r.data
  | some err => .error err

/-! ## The environment -/

/-- What the client observes of its environment during one call. -/
structure World where
  /-- the call `os.ReadFile(path)` -/
  readFile : String → Except Err String
  /-- the validation done by `http.NewRequest(method, url, _)`: `none` when it accepts -/
  newRequestErr : String → String → Option Err
  /-- the call `c.httpClient.Do(req)` -/
  roundTrip : Request → Except Err Response
  /-- the call `json.Marshal` on a mount request -/
  marshalMountRequest : MountRequest → Except Err String
  /-- the call `json.Unmarshal(b, &errMessage)` -/
  unmarshalErrorMessage : String → Except Err ErrorMessage
  /-- the call `json.Unmarshal(body, &cfg)` -/
  unmarshalDaemonConfig : String → Except Err DaemonConfig

/-- The result of an operation and the requests it handed to the transport. -/
structure Outcome (α : Type) where
  result : α
  sent : List Request

/-- The function `http.NewRequest`: validates, then builds a request without headers. -/
def NewRequest (w : World) (method url : String) (body : Option String) :
    Except Err Request :=
  match w.newRequestErr method url with
  | some err => .error err
  | none => .ok ⟨method, url, [], body⟩

/-- The response an operation received, when it performed exactly one exchange and the
transport answered it. -/
def Outcome.response {α : Type} (w : World) (out : Outcome α) : Option Response :=
  match out.sent with
  | [req] =>
    match w.roundTrip req with
    | .ok resp => some resp
    | .error _ => none
  | _ => none

/-! ## Error mapping -/

def handleMountError (w : World) (resp : Response) : Option Err :=
  match ioReadAll resp.Body with
  | .error err => some (.wrapped err "failed to read from reader")
  | .ok b =>
    match w.unmarshalErrorMessage b with
    | .error err => some (.wrapped err "failed unmarshal ErrorMessage")
    | .ok errMessage =>
      some (.plain ("http response: " ++ fmtD resp.StatusCode ++ ", error code: "
        ++ errMessage.Code ++ ", error message: " ++ errMessage.Message))

/-! ## Operations

Each operation follows its Go text statement by statement.  The deferred
`resp.Body.Close()` and the log line of `FscacheBindBlob` have no effect on the result or on
the requests and are left out. -/

def Umount (w : World) (sharedMountPoint : String) : Outcome (Option Err) :=
  let requestURL := "http://unix" ++ endpointMount ++ "?mountpoint=" ++ sharedMountPoint
  match NewRequest w MethodDelete requestURL none with
  | .error err => ⟨some (.wrapped err "failed to create umount request"), []⟩
  | .ok req =>
    match w.roundTrip req with
    | .error err =>
      ⟨some (.wrapped err ("failed to do HTTP DELETE to " ++ requestURL)), [req]⟩
    | .ok resp =>
      if resp.StatusCode = StatusNoContent then ⟨none, [req]⟩
      else ⟨handleMountError w resp, [req]⟩

/-- The method `Header.Set`: replaces the values stored under the key. -/
def headerSet (h : List (String × String)) (key value : String) : List (String × String) :=
  (key, value) :: h.filter (fun kv => kv.1 != key)

/-- The method `c.httpClient.Get(url)`: builds a GET request and performs it. -/
def clientGet (w : World) (url : String) : Outcome (Except Err Response) :=
  match NewRequest w MethodGet url none with
  | .error err => ⟨.error err, []⟩
  | .ok req => ⟨w.roundTrip req, [req]⟩

/-- The method `c.httpClient.Post(url, contentType, body)`: builds a POST request, sets its
`Content-Type` header and performs it. -/
def clientPost (w : World) (url ctype body : String) : Outcome (Except Err Response) :=
  match NewRequest w MethodPost url (some body) with
  | .error err => ⟨.error err, []⟩
  | .ok req =>
    let req1 : Request := ⟨req.Method, req.URL, headerSet req.Header "Content-Type" ctype, req.Body⟩
    ⟨w.roundTrip req1, [req1]⟩

/-- The decoder `unmarshalDaemonInfo` is `json.Unmarshal(b, &info)` into `model.DaemonInfo`,
a type declared outside `client.go`. -/
def CheckStatus {DaemonInfo : Type} (w : World)
    (unmarshalDaemonInfo : String → Except Err DaemonInfo) :
    Outcome (Except Err DaemonInfo) :=
  let addr := "http://unix" ++ endpointDaemonInfo
  let got := clientGet w addr
  match got.result with
  | .error err => ⟨.error (.wrapped err ("failed to do HTTP GET from " ++ addr)), got.sent⟩
  | .ok resp =>
    match ioReadAll resp.Body with
    | .error err => ⟨.error (.wrapped err "failed to read status response"), got.sent⟩
    | .ok b =>
      match unmarshalDaemonInfo b with
      | .error err => ⟨.error err, got.sent⟩
      | .ok info => ⟨.ok info, got.sent⟩

/-- The decoder `decodeFsMetric` is `json.NewDecoder(resp.Body).Decode(&m)` into
`model.FsMetric`, a type declared outside `client.go`; it consumes the body reader. -/
def GetFsMetric {FsMetric : Type} (w : World)
    (decodeFsMetric : Body → Except Err FsMetric) (sharedDaemon : Bool) (sid : String) :
    Outcome (Except Err FsMetric) :=
  let getStatURL :=
    if sharedDaemon then "http://unix" ++ endpointMetrics ++ "?id=/" ++ sid ++ "/fs"
    else "http://unix" ++ endpointMetrics
  match NewRequest w MethodGet getStatURL none with
  | .error err => ⟨.error (.wrapped err "failed to create GetFsMetric request"), []⟩
  | .ok req =>
    match w.roundTrip req with
    | .error err =>
      ⟨.error (.wrapped err ("failed to do HTTP GET to " ++ getStatURL)), [req]⟩
    | .ok resp =>
      if resp.StatusCode = StatusNoContent then
        ⟨.error (.plain "got unexpected http status StatusNoContent"), [req]⟩
      else
        match decodeFsMetric resp.Body with
        | .error err => ⟨.error (.wrapped err "failed to decode FsMetric"), [req]⟩
        | .ok m => ⟨.ok m, [req]⟩

def SharedMount (w : World) (sharedMountPoint bootstrap daemonConfig : String) :
    Outcome (Option Err) :=
  let requestURL := "http://unix" ++ endpointMount ++ "?mountpoint=" ++ sharedMountPoint
  match w.readFile daemonConfig with
  | .error err =>
    ⟨some (.wrapped err ("failed to get content of daemon config " ++ daemonConfig)), []⟩
  | .ok content =>
    match w.marshalMountRequest (NewMountRequest bootstrap content) with
    | .error err => ⟨some (.wrapped err "failed to create mount request"), []⟩
    | .ok body =>
      let posted := clientPost w requestURL contentType body
      match posted.result with
      | .error err =>
        ⟨some (.wrapped err ("failed to do HTTP POST to " ++ requestURL)), posted.sent⟩
      | .ok resp =>
        if resp.StatusCode = StatusNoContent then ⟨none, posted.sent⟩
        else ⟨handleMountError w resp, posted.sent⟩

def FscacheBindBlob (w : World) (daemonConfig : String) : Outcome (Option Err) :=
  match w.readFile daemonConfig with
  | .error err =>
    ⟨some (.wrapped err ("failed to get content of daemon config " ++ daemonConfig)), []⟩
  | .ok body =>
    let requestURL := "http://unix/api/v2/blobs"
    match NewRequest w MethodPut requestURL (some body) with
    | .error err =>
      ⟨some (.wrapped err ("failed to create request for url " ++ requestURL)), []⟩
    | .ok req =>
      match w.roundTrip req with
      | .error err =>
        ⟨some (.wrapped err ("failed to do HTTP PUT to " ++ requestURL)), [req]⟩
      | .ok resp =>
        if resp.StatusCode = StatusNoContent then ⟨none, [req]⟩
        else ⟨handleMountError w resp, [req]⟩

def FscacheUnbindBlob (w : World) (daemonConfig : String) : Outcome (Option Err) :=
  match w.readFile daemonConfig with
  | .error err =>
    ⟨some (.wrapped err ("failed to get content of daemon config " ++ daemonConfig)), []⟩
  | .ok body =>
    match w.unmarshalDaemonConfig body with
    | .error err => ⟨some (.wrapped err "unmarshal fscache daemon config"), []⟩
    | .ok cfg =>
      let requestURL := "http://unix/api/v2/blobs?domain_id=" ++ cfg.DomainID
      match NewRequest w MethodDelete requestURL none with
      | .error err =>
        ⟨some (.wrapped err "failed to create fscache unbind blob request"), []⟩
      | .ok req =>
        match w.roundTrip req with
        | .error err =>
          ⟨some (.wrapped err ("failed to do HTTP DELETE to " ++ requestURL)), [req]⟩
        | .ok resp =>
          if resp.StatusCode = StatusNoContent then ⟨none, [req]⟩
          else ⟨handleMountError w resp, [req]⟩

/-! ## Waiting for the socket -/

/-- The constant `os.ModeSocket`, bit 24 of a file mode. -/
def ModeSocket : Nat := 2 ^ 24

/-- The retried function of `WaitUntilSocketExisted`, applied to what `os.Stat(sock)`
returned at this attempt: the mode bits of the entry, or the stat error. -/
def socketAttempt (sock : String) (st : Except Err Nat) : Option Err :=
  match st with
  | .error err => some err
  | .ok mode =>
    if mode &&& ModeSocket = 0 then some (.plain ("file " ++ sock ++ " is not socket file"))
    else none

/-- The loop of `retryDo`: `n` attempts were made, `remaining` are left and `last` is the
error of the latest attempt. -/
def retryLoop (retryableFunc : Nat → Option Err) :
    (remaining : Nat) → (n : Nat) → (last : Option Err) → Option Err × Nat
  | 0, n, last => (last, n)
  | k + 1, n, _ =>
    match retryableFunc n with
    | none => (none, n + 1)
    | some err => retryLoop retryableFunc k (n + 1) (some err)

/-- Modelled from the spec: `retry.Do` of `pkg/utils/retry`, which is not among the sources,
with the options `retry.Attempts(attempts)` and `retry.LastErrorOnly(true)`: a fixed number
of attempts, stopping at the first attempt that returns no error, and surfacing only the
error of the final attempt.  The argument of `retryableFunc` is the index of the attempt;
the result pairs the returned error with the number of attempts made.  The delay between
attempts is time and has no counterpart here. -/
def retryDo (attempts : Nat) (retryableFunc : Nat → Option Err) : Option Err × Nat :=
  retryLoop retryableFunc attempts 0 none

/-- The file system is the sequence `stat` of what `os.Stat(sock)` returns at each
attempt. -/
def WaitUntilSocketExisted (sock : String) (stat : Nat → Except Err Nat) : Option Err × Nat :=
  retryDo 20 (fun i => socketAttempt sock (stat i))

/-! ## Observations used in the statements -/

/-- The text `sub` occurs in the text `t`. -/
def containsText (t sub : String) : Prop := sub.data <:+: t.data

instance (t sub : String) : Decidable (containsText t sub) := by
  unfold containsText; infer_instance

/-- The text `handleMountError` prints for a decoded daemon error. -/
def httpErrorText (status : Int) (code message : String) : String :=
  "http response: " ++ fmtD status ++ ", error code: " ++ code ++ ", error message: " ++ message

/-! ## Concrete environments -/

def sampleConfigPath : String := "/etc/nydus/nydusd-config.json"

def sampleConfig : String := "\x7b\"domain_id\":\"d1\"\x7d"

def sampleErrorBody : String := "\x7b\"code\":\"E1\",\"message\":\"busy\"\x7d"

/-- The check `stringContainsCTLByte` of `net/url`, by which `url.Parse`, and so
`http.NewRequest`, rejects a URL holding an ASCII control character. -/
def stringContainsCTLByte (s : String) : Bool :=
  s.data.any (fun c => c.toNat < 32 || c.toNat == 127)

def brokenConfigPath : String := "/etc/nydus/broken.json"

/-- A daemon that answers every request with the given status and body.  Two files exist,
a configuration and a file that is not one; request construction rejects control
characters; the JSON functions know the sample texts. -/
def sampleWorld (status : Int) (body : String) : World where
  readFile := fun path =>
    if path = sampleConfigPath then .ok sampleConfig
    else if path = brokenConfigPath then .ok "domain_id: d1"
    else .error (.lib ("open " ++ path ++ ": no such file or directory"))
  newRequestErr := fun _ url =>
    if stringContainsCTLByte url then some (.lib "net/url: invalid control character in URL")
    else none
  roundTrip := fun _ => .ok ⟨status, ⟨body, none⟩⟩
  marshalMountRequest := fun r => .ok ("source=" ++ r.Source ++ ";config=" ++ r.Config)
  unmarshalErrorMessage := fun b =>
    if b = sampleErrorBody then .ok ⟨"E1", "busy"⟩
    else .error (.lib "unexpected end of JSON input")
  unmarshalDaemonConfig := fun b =>
    if b = sampleConfig then .ok ⟨"d1"⟩
    else .error (.lib "unexpected end of JSON input")

/-- A stand-in for `json.Unmarshal` into `model.DaemonInfo`: the payload is the text. -/
def sampleUnmarshalInfo (b : String) : Except Err String :=
  if b = "" then .error (.lib "unexpected end of JSON input") else .ok b

/-- A stand-in for `json.NewDecoder(body).Decode` into `model.FsMetric`: the payload is the
text read. -/
def sampleDecodeMetric (b : Body) : Except Err String :=
  match ioReadAll b with
  | .error err => .error err
  | .ok t => if t = "" then .error (.lib "EOF") else .ok t

/-- The stat result shows an entry whose mode has the socket bit. -/
def isSocket (st : Except Err Nat) : Bool :=
  match st with
  | .error _ => false
  | .ok mode => mode &&& ModeSocket != 0

/-- A file system where the path is absent at attempts 0 and 1, a regular file at attempt
2, and a socket from attempt 3 on. -/
def socketAppearsAtThree (i : Nat) : Except Err Nat :=
  if i < 2 then .error (.lib "stat /run/api.sock: no such file or directory")
  else if i = 2 then .ok 420
  else .ok (ModeSocket + 493)

/-- A file system where the path is a regular file until attempt 18 and absent after. -/
def socketNeverAppears (i : Nat) : Except Err Nat :=
  if i < 19 then .ok 420
  else .error (.lib "stat /run/api.sock: no such file or directory")

/-! ## Theorems -/

theorem containsText_mid (a b c : String) : containsText (a ++ b ++ c) b := by
  refine ⟨a.data, c.data, ?_⟩
  simp [String.data_append]

theorem containsText_end (a b : String) : containsText (a ++ b) b := by
  refine ⟨a.data, [], ?_⟩
  simp [String.data_append]

theorem containsText_append_right {t sub : String} (u : String) (h : containsText t sub) :
    containsText (t ++ u) sub := by
  obtain ⟨p, q, hpq⟩ := h
  refine ⟨p, q ++ u.data, ?_⟩
  simp [String.data_append, ← hpq]

theorem handleMountError_ne_none (w : World) (resp : Response) :
    handleMountError w resp ≠ none := by
  unfold handleMountError
  split
  · simp
  · split <;> simp

theorem Umount_answered (w : World) (mp : String) (resp : Response)
    (h : (Umount w mp).response w = some resp) :
    (Umount w mp).result
      = if resp.StatusCode = StatusNoContent then none else handleMountError w resp := by
  unfold Umount NewRequest at h ⊢
  cases hn : w.newRequestErr MethodDelete
      ("http://unix" ++ endpointMount ++ "?mountpoint=" ++ mp) with
  | some e => simp [hn, Outcome.response] at h
  | none =>
    simp only [hn] at h ⊢
    cases hr : w.roundTrip
        ⟨MethodDelete, "http://unix" ++ endpointMount ++ "?mountpoint=" ++ mp, [], none⟩ with
    | error e => simp [hr, Outcome.response] at h
    | ok r =>
      simp only [hr] at h ⊢
      by_cases hs : r.StatusCode = StatusNoContent
      · simp [hs, Outcome.response, hr] at h ⊢
        subst h; simp [hs]
      · simp [hs, Outcome.response, hr] at h ⊢
        subst h; simp [hs]

theorem SharedMount_answered (w : World) (mp bootstrap cfg : String) (resp : Response)
    (h : (SharedMount w mp bootstrap cfg).response w = some resp) :
    (SharedMount w mp bootstrap cfg).result
      = if resp.StatusCode = StatusNoContent then none else handleMountError w resp := by
  unfold SharedMount clientPost NewRequest at h ⊢
  cases hf : w.readFile cfg with
  | error e => simp [hf, Outcome.response] at h
  | ok content =>
    simp only [hf] at h ⊢
    cases hm : w.marshalMountRequest (NewMountRequest bootstrap content) with
    | error e => simp [hm, Outcome.response] at h
    | ok body =>
      simp only [hm] at h ⊢
      cases hn : w.newRequestErr MethodPost
          ("http://unix" ++ endpointMount ++ "?mountpoint=" ++ mp) with
      | some e => simp [hn, Outcome.response] at h
      | none =>
        simp only [hn] at h ⊢
        cases hr : w.roundTrip
            ⟨MethodPost, "http://unix" ++ endpointMount ++ "?mountpoint=" ++ mp,
              headerSet [] "Content-Type" contentType, some body⟩ with
        | error e => simp [hr, Outcome.response] at h
        | ok r =>
          simp only [hr] at h ⊢
          by_cases hs : r.StatusCode = StatusNoContent
          · simp [hs, Outcome.response, hr] at h ⊢
            subst h; simp [hs]
          · simp [hs, Outcome.response, hr] at h ⊢
            subst h; simp [hs]

theorem FscacheBindBlob_answered (w : World) (cfg : String) (resp : Response)
    (h : (FscacheBindBlob w cfg).response w = some resp) :
    (FscacheBindBlob w cfg).result
      = if resp.StatusCode = StatusNoContent then none else handleMountError w resp := by
  unfold FscacheBindBlob NewRequest at h ⊢
  cases hf : w.readFile cfg with
  | error e => simp [hf, Outcome.response] at h
  | ok body =>
    simp only [hf] at h ⊢
    cases hn : w.newRequestErr MethodPut "http://unix/api/v2/blobs" with
    | some e => simp [hn, Outcome.response] at h
    | none =>
      simp only [hn] at h ⊢
      cases hr : w.roundTrip ⟨MethodPut, "http://unix/api/v2/blobs", [], some body⟩ with
      | error e => simp [hr, Outcome.response] at h
      | ok r =>
        simp only [hr] at h ⊢
        by_cases hs : r.StatusCode = StatusNoContent
        · simp [hs, Outcome.response, hr] at h ⊢
          subst h; simp [hs]
        · simp [hs, Outcome.response, hr] at h ⊢
          subst h; simp [hs]

theorem FscacheUnbindBlob_answered (w : World) (cfg : String) (resp : Response)
    (h : (FscacheUnbindBlob w cfg).response w = some resp) :
    (FscacheUnbindBlob w cfg).result
      = if resp.StatusCode = StatusNoContent then none else handleMountError w resp := by
  unfold FscacheUnbindBlob NewRequest at h ⊢
  cases hf : w.readFile cfg with
  | error e => simp [hf, Outcome.response] at h
  | ok body =>
    simp only [hf] at h ⊢
    cases hc : w.unmarshalDaemonConfig body with
    | error e => simp [hc, Outcome.response] at h
    | ok dc =>
      simp only [hc] at h ⊢
      cases hn : w.newRequestErr MethodDelete
          ("http://unix/api/v2/blobs?domain_id=" ++ dc.DomainID) with
      | some e => simp [hn, Outcome.response] at h
      | none =>
        simp only [hn] at h ⊢
        cases hr : w.roundTrip
            ⟨MethodDelete, "http://unix/api/v2/blobs?domain_id=" ++ dc.DomainID, [], none⟩ with
        | error e => simp [hr, Outcome.response] at h
        | ok r =>
          simp only [hr] at h ⊢
          by_cases hs : r.StatusCode = StatusNoContent
          · simp [hs, Outcome.response, hr] at h ⊢
            subst h; simp [hs]
          · simp [hs, Outcome.response, hr] at h ⊢
            subst h; simp [hs]

/-- A result that is nil on status 204 and the mapped error otherwise is nil exactly on
status 204, because the mapped error is never nil. -/
theorem nil_iff_204_of_answered (w : World) (resp : Response) (r : Option Err)
    (h : r = if resp.StatusCode = StatusNoContent then none else handleMountError w resp) :
    (r = none ↔ resp.StatusCode = 204)
      ∧ (resp.StatusCode ≠ 204 → r = handleMountError w resp ∧ r ≠ none) := by
  have hne := handleMountError_ne_none w resp
  unfold StatusNoContent at h
  by_cases hs : resp.StatusCode = 204
  · simp [hs] at h
    simp [h, hs]
  · simp [hs] at h
    simp [h, hs, hne]

/-- C1: for each of the four mutating operations, whenever the operation got as far as the
HTTP exchange (the configuration read and parse, if any, succeeded) and the transport
returned a response, the operation returns nil if and only if the status is exactly 204;
for every other status, whatever the body, it returns the error of `handleMountError`, which
is not nil. -/
theorem mutating_nil_iff_204 (w : World) (sharedMountPoint bootstrap daemonConfig : String)
    (resp : Response) :
    ((SharedMount w sharedMountPoint bootstrap daemonConfig).response w = some resp →
        ((SharedMount w sharedMountPoint bootstrap daemonConfig).result = none
            ↔ resp.StatusCode = 204)
          ∧ (resp.StatusCode ≠ 204 →
              (SharedMount w sharedMountPoint bootstrap daemonConfig).result
                  = handleMountError w resp
                ∧ (SharedMount w sharedMountPoint bootstrap daemonConfig).result ≠ none))
      ∧ ((Umount w sharedMountPoint).response w = some resp →
        ((Umount w sharedMountPoint).result = none ↔ resp.StatusCode = 204)
          ∧ (resp.StatusCode ≠ 204 →
              (Umount w sharedMountPoint).result = handleMountError w resp
                ∧ (Umount w sharedMountPoint).result ≠ none))
      ∧ ((FscacheBindBlob w daemonConfig).response w = some resp →
        ((FscacheBindBlob w daemonConfig).result = none ↔ resp.StatusCode = 204)
          ∧ (resp.StatusCode ≠ 204 →
              (FscacheBindBlob w daemonConfig).result = handleMountError w resp
                ∧ (FscacheBindBlob w daemonConfig).result ≠ none))
      ∧ ((FscacheUnbindBlob w daemonConfig).response w = some resp →
        ((FscacheUnbindBlob w daemonConfig).result = none ↔ resp.StatusCode = 204)
          ∧ (resp.StatusCode ≠ 204 →
              (FscacheUnbindBlob w daemonConfig).result = handleMountError w resp
                ∧ (FscacheUnbindBlob w daemonConfig).result ≠ none)) :=
  ⟨fun h => nil_iff_204_of_answered w resp _ (SharedMount_answered w _ _ _ resp h),
   fun h => nil_iff_204_of_answered w resp _ (Umount_answered w _ resp h),
   fun h => nil_iff_204_of_answered w resp _ (FscacheBindBlob_answered w _ resp h),
   fun h => nil_iff_204_of_answered w resp _ (FscacheUnbindBlob_answered w _ resp h)⟩

/-- Witness of C1: against a daemon answering 200 with a decodable error body, each of the
four operations reaches the exchange, and each returns a non-nil error although 200 is a
2xx status. -/
theorem mutating_nil_iff_204_witness :
    ((SharedMount (sampleWorld 200 sampleErrorBody) "/mnt" "boot" sampleConfigPath).response
          (sampleWorld 200 sampleErrorBody) = some ⟨200, ⟨sampleErrorBody, none⟩⟩
        ∧ (SharedMount (sampleWorld 200 sampleErrorBody) "/mnt" "boot" sampleConfigPath).result
          ≠ none)
      ∧ ((Umount (sampleWorld 200 sampleErrorBody) "/mnt").response
          (sampleWorld 200 sampleErrorBody) = some ⟨200, ⟨sampleErrorBody, none⟩⟩
        ∧ (Umount (sampleWorld 200 sampleErrorBody) "/mnt").result ≠ none)
      ∧ ((FscacheBindBlob (sampleWorld 200 sampleErrorBody) sampleConfigPath).response
          (sampleWorld 200 sampleErrorBody) = some ⟨200, ⟨sampleErrorBody, none⟩⟩
        ∧ (FscacheBindBlob (sampleWorld 200 sampleErrorBody) sampleConfigPath).result ≠ none)
      ∧ ((FscacheUnbindBlob (sampleWorld 200 sampleErrorBody) sampleConfigPath).response
          (sampleWorld 200 sampleErrorBody) = some ⟨200, ⟨sampleErrorBody, none⟩⟩
        ∧ (FscacheUnbindBlob (sampleWorld 200 sampleErrorBody) sampleConfigPath).result
          ≠ none) :=
  have h := mutating_nil_iff_204 (sampleWorld 200 sampleErrorBody) "/mnt" "boot"
    sampleConfigPath ⟨200, ⟨sampleErrorBody, none⟩⟩
  ⟨⟨rfl, ((h.1 rfl).2 (by decide)).2⟩, ⟨rfl, ((h.2.1 rfl).2 (by decide)).2⟩,
   ⟨rfl, ((h.2.2.1 rfl).2 (by decide)).2⟩, ⟨rfl, ((h.2.2.2 rfl).2 (by decide)).2⟩⟩

/-- C2: for every status `s` and every body that decodes to an Error Message with code `c`
and message `m`, `handleMountError` returns an error whose text is exactly
"http response: s, error code: c, error message: m", with `s` in decimal, and this text
contains the status, the code and the message. -/
theorem handleMountError_text (w : World) (s : Int) (body c m : String)
    (hdec : w.unmarshalErrorMessage body = .ok ⟨c, m⟩) :
    (handleMountError w ⟨s, ⟨body, none⟩⟩).map Err.text
        = some ("http response: " ++ toString s ++ ", error code: " ++ c
            ++ ", error message: " ++ m)
      ∧ (handleMountError w ⟨s, ⟨body, none⟩⟩).map Err.text = some (httpErrorText s c m)
      ∧ containsText (httpErrorText s c m) (toString s)
      ∧ containsText (httpErrorText s c m) c
      ∧ containsText (httpErrorText s c m) m := by
  refine ⟨?_, ?_, ?_, ?_, ?_⟩
  · simp [handleMountError, ioReadAll, hdec, Err.text, fmtD]
  · simp [handleMountError, ioReadAll, hdec, Err.text, httpErrorText]
  · unfold httpErrorText fmtD
    exact containsText_append_right _ (containsText_append_right _
      (containsText_append_right _ (containsText_append_right _ (containsText_end _ _))))
  · unfold httpErrorText
    exact containsText_append_right _ (containsText_append_right _ (containsText_end _ _))
  · unfold httpErrorText
    exact containsText_end _ _

/-- Witness of C2: status 409 with the body `\x7b"code":"E1","message":"busy"\x7d` gives
the text "http response: 409, error code: E1, error message: busy", which contains "409",
"E1" and "busy". -/
theorem handleMountError_text_witness :
    (sampleWorld 409 sampleErrorBody).unmarshalErrorMessage sampleErrorBody
        = .ok ⟨"E1", "busy"⟩
      ∧ (handleMountError (sampleWorld 409 sampleErrorBody) ⟨409, ⟨sampleErrorBody, none⟩⟩).map
          Err.text = some "http response: 409, error code: E1, error message: busy"
      ∧ containsText "http response: 409, error code: E1, error message: busy" "409"
      ∧ containsText "http response: 409, error code: E1, error message: busy" "E1"
      ∧ containsText "http response: 409, error code: E1, error message: busy" "busy" := by
  have h := handleMountError_text (sampleWorld 409 sampleErrorBody) 409 sampleErrorBody
    "E1" "busy" rfl
  have e : httpErrorText 409 "E1" "busy"
      = "http response: 409, error code: E1, error message: busy" := by decide
  rw [e] at h
  exact ⟨rfl, h.2.1, h.2.2.1, h.2.2.2.1, h.2.2.2.2⟩

/-- C9: `handleMountError` never returns nil and returns exactly one of three forms.  When
the body cannot be read it returns the read error wrapped as "failed to read from reader";
when the body is read but does not decode into an Error Message it returns the decode
failure itself wrapped as "failed unmarshal ErrorMessage"; and it returns the
"http response: ..., error code: ..., error message: ..." form only when the body decoded,
with the decoded code and message, never with made-up ones. -/
theorem handleMountError_forms (w : World) (resp : Response) :
    handleMountError w resp ≠ none
      ∧ (∀ e, resp.Body.readErr = some e →
          handleMountError w resp = some (.wrapped e "failed to read from reader"))
      ∧ (∀ e, resp.Body.readErr = none →
          w.unmarshalErrorMessage resp.Body.data = .error e →
          handleMountError w resp = some (.wrapped e "failed unmarshal ErrorMessage")
            ∧ (handleMountError w resp).map Err.text
                = some ("failed unmarshal ErrorMessage: " ++ e.text))
      ∧ (∀ t, handleMountError w resp = some (.plain t) →
          ∃ em, resp.Body.readErr = none
            ∧ w.unmarshalErrorMessage resp.Body.data = .ok em
            ∧ t = httpErrorText resp.StatusCode em.Code em.Message)
      ∧ (∀ em, resp.Body.readErr = none →
          w.unmarshalErrorMessage resp.Body.data = .ok em →
          handleMountError w resp
            = some (.plain (httpErrorText resp.StatusCode em.Code em.Message)))
      ∧ ((∃ e, handleMountError w resp = some (.wrapped e "failed to read from reader"))
        ∨ (∃ e, handleMountError w resp = some (.wrapped e "failed unmarshal ErrorMessage"))
        ∨ (∃ em : ErrorMessage, handleMountError w resp
            = some (.plain (httpErrorText resp.StatusCode em.Code em.Message)))) := by
  refine ⟨?_, ?_, ?_, ?_, ?_, ?_⟩
  · unfold handleMountError ioReadAll
    cases hr : resp.Body.readErr <;> simp
    cases hd : w.unmarshalErrorMessage resp.Body.data <;> simp
  · intro e he
    simp [handleMountError, ioReadAll, he]
  · intro e hr hd
    simp [handleMountError, ioReadAll, hr, hd, Err.text]
  · intro t ht
    unfold handleMountError ioReadAll at ht
    cases hr : resp.Body.readErr with
    | some e => simp [hr] at ht
    | none =>
      cases hd : w.unmarshalErrorMessage resp.Body.data with
      | error e => simp [hr, hd] at ht
      | ok em =>
        simp [hr, hd] at ht
        exact ⟨em, rfl, rfl, by rw [← ht]; rfl⟩
  · intro em hr hd
    simp [handleMountError, ioReadAll, hr, hd, httpErrorText]
  · cases hr : resp.Body.readErr with
    | some e => exact Or.inl ⟨e, by simp [handleMountError, ioReadAll, hr]⟩
    | none =>
      cases hd : w.unmarshalErrorMessage resp.Body.data with
      | error e => exact Or.inr (Or.inl ⟨e, by simp [handleMountError, ioReadAll, hr, hd]⟩)
      | ok em =>
        exact Or.inr (Or.inr ⟨em, by
          simp [handleMountError, ioReadAll, hr, hd, httpErrorText]⟩)

/-- Witness of C9: a body that is not an Error Message, under status 500, yields the
wrapped decode failure and not the "http response" form. -/
theorem handleMountError_forms_witness :
    handleMountError (sampleWorld 500 "oops") ⟨500, ⟨"oops", none⟩⟩
        = some (.wrapped (.lib "unexpected end of JSON input") "failed unmarshal ErrorMessage")
      ∧ (handleMountError (sampleWorld 500 "oops") ⟨500, ⟨"oops", none⟩⟩).map Err.text
        = some "failed unmarshal ErrorMessage: unexpected end of JSON input" :=
  (handleMountError_forms (sampleWorld 500 "oops") ⟨500, ⟨"oops", none⟩⟩).2.2.1
    (.lib "unexpected end of JSON input") rfl rfl

theorem GetFsMetric_answered {FsMetric : Type} (w : World)
    (decodeFsMetric : Body → Except Err FsMetric) (sharedDaemon : Bool) (sid : String)
    (resp : Response)
    (h : (GetFsMetric w decodeFsMetric sharedDaemon sid).response w = some resp) :
    (GetFsMetric w decodeFsMetric sharedDaemon sid).result
      = if resp.StatusCode = StatusNoContent then
          .error (.plain "got unexpected http status StatusNoContent")
        else
          match decodeFsMetric resp.Body with
          | .error err => .error (.wrapped err "failed to decode FsMetric")
          | .ok m => .ok m := by
  unfold GetFsMetric NewRequest at h ⊢
  generalize (if sharedDaemon = true then
      "http://unix" ++ endpointMetrics ++ "?id=/" ++ sid ++ "/fs"
    else "http://unix" ++ endpointMetrics) = url at h ⊢
  cases hn : w.newRequestErr MethodGet url with
  | some e => simp [hn, Outcome.response] at h
  | none =>
    simp only [hn] at h ⊢
    cases hr : w.roundTrip ⟨MethodGet, url, [], none⟩ with
    | error e => simp [hr, Outcome.response] at h
    | ok r =>
      simp only [hr] at h ⊢
      by_cases hs : r.StatusCode = StatusNoContent
      · simp [hs, Outcome.response, hr] at h ⊢
        subst h; simp [hs]
      · cases hd : decodeFsMetric r.Body with
        | error e =>
          simp [hs, hd, Outcome.response, hr] at h ⊢
          subst h; simp [hs, hd]
        | ok m =>
          simp [hs, hd, Outcome.response, hr] at h ⊢
          subst h; simp [hs, hd]

theorem CheckStatus_answered {DaemonInfo : Type} (w : World)
    (unmarshalDaemonInfo : String → Except Err DaemonInfo) (resp : Response)
    (h : (CheckStatus w unmarshalDaemonInfo).response w = some resp) :
    (CheckStatus w unmarshalDaemonInfo).result
      = match ioReadAll resp.Body with
        | .error err => .error (.wrapped err "failed to read status response")
        | .ok b => unmarshalDaemonInfo b := by
  unfold CheckStatus clientGet NewRequest at h ⊢
  cases hn : w.newRequestErr MethodGet ("http://unix" ++ endpointDaemonInfo) with
  | some e => simp [hn, Outcome.response] at h
  | none =>
    simp only [hn] at h ⊢
    cases hr : w.roundTrip ⟨MethodGet, "http://unix" ++ endpointDaemonInfo, [], none⟩ with
    | error e => simp [hr, Outcome.response] at h
    | ok r =>
      simp only [hr] at h ⊢
      cases hb : ioReadAll r.Body with
      | error e =>
        simp [hb, Outcome.response, hr] at h ⊢
        subst h; simp [hb]
      | ok b =>
        cases hd : unmarshalDaemonInfo b with
        | error e =>
          simp [hb, hd, Outcome.response, hr] at h ⊢
          subst h; simp [hb, hd]
        | ok info =>
          simp [hb, hd, Outcome.response, hr] at h ⊢
          subst h; simp [hb, hd]

/-- C3: for every value of `sharedDaemon`, every `sid` and every response body, when the
response has status 204 `GetFsMetric` returns the error
"got unexpected http status StatusNoContent" and no metric, whereas each of the four
mutating operations returns nil on a 204 response. -/
theorem GetFsMetric_204_is_error {FsMetric : Type} (w : World)
    (decodeFsMetric : Body → Except Err FsMetric) (sharedDaemon : Bool)
    (sid sharedMountPoint bootstrap daemonConfig : String) (resp : Response)
    (hs : resp.StatusCode = 204) :
    ((GetFsMetric w decodeFsMetric sharedDaemon sid).response w = some resp →
        (GetFsMetric w decodeFsMetric sharedDaemon sid).result
          = .error (.plain "got unexpected http status StatusNoContent"))
      ∧ ((SharedMount w sharedMountPoint bootstrap daemonConfig).response w = some resp →
        (SharedMount w sharedMountPoint bootstrap daemonConfig).result = none)
      ∧ ((Umount w sharedMountPoint).response w = some resp →
        (Umount w sharedMountPoint).result = none)
      ∧ ((FscacheBindBlob w daemonConfig).response w = some resp →
        (FscacheBindBlob w daemonConfig).result = none)
      ∧ ((FscacheUnbindBlob w daemonConfig).response w = some resp →
        (FscacheUnbindBlob w daemonConfig).result = none) := by
  have hs1 : resp.StatusCode = StatusNoContent := hs
  refine ⟨fun h => ?_, fun h => ?_, fun h => ?_, fun h => ?_, fun h => ?_⟩
  · rw [GetFsMetric_answered w decodeFsMetric sharedDaemon sid resp h]; simp [hs1]
  · rw [SharedMount_answered w _ _ _ resp h]; simp [hs1]
  · rw [Umount_answered w _ resp h]; simp [hs1]
  · rw [FscacheBindBlob_answered w _ resp h]; simp [hs1]
  · rw [FscacheUnbindBlob_answered w _ resp h]; simp [hs1]

/-- Witness of C3: a daemon answers 204 with a body that would decode; in shared mode
`GetFsMetric` gets that response and returns the error. -/
theorem GetFsMetric_204_is_error_witness :
    (GetFsMetric (sampleWorld 204 "metrics") sampleDecodeMetric true "sid1").response
        (sampleWorld 204 "metrics") = some ⟨204, ⟨"metrics", none⟩⟩
      ∧ sampleDecodeMetric ⟨"metrics", none⟩ = .ok "metrics"
      ∧ (GetFsMetric (sampleWorld 204 "metrics") sampleDecodeMetric true "sid1").result
        = .error (.plain "got unexpected http status StatusNoContent") :=
  ⟨rfl, rfl,
    (GetFsMetric_204_is_error (sampleWorld 204 "metrics") sampleDecodeMetric true "sid1"
      "/mnt" "boot" sampleConfigPath ⟨204, ⟨"metrics", none⟩⟩ rfl).1 rfl⟩

/-- C7: a local configuration failure aborts the operation before any network call.  When
reading `daemonConfig` fails, `SharedMount`, `FscacheBindBlob` and `FscacheUnbindBlob` each
return the read error, wrapped, and hand no request to the transport; when the file is read
but does not parse as a daemon configuration, `FscacheUnbindBlob` returns the parse error,
wrapped, and hands no request to the transport. -/
theorem config_failure_sends_nothing (w : World)
    (sharedMountPoint bootstrap daemonConfig : String) :
    (∀ e, w.readFile daemonConfig = .error e →
        ((SharedMount w sharedMountPoint bootstrap daemonConfig).result
            = some (.wrapped e ("failed to get content of daemon config " ++ daemonConfig))
          ∧ (SharedMount w sharedMountPoint bootstrap daemonConfig).sent = [])
        ∧ ((FscacheBindBlob w daemonConfig).result
            = some (.wrapped e ("failed to get content of daemon config " ++ daemonConfig))
          ∧ (FscacheBindBlob w daemonConfig).sent = [])
        ∧ ((FscacheUnbindBlob w daemonConfig).result
            = some (.wrapped e ("failed to get content of daemon config " ++ daemonConfig))
          ∧ (FscacheUnbindBlob w daemonConfig).sent = []))
      ∧ (∀ body e, w.readFile daemonConfig = .ok body →
          w.unmarshalDaemonConfig body = .error e →
          (FscacheUnbindBlob w daemonConfig).result
              = some (.wrapped e "unmarshal fscache daemon config")
            ∧ (FscacheUnbindBlob w daemonConfig).sent = []) := by
  refine ⟨fun e he => ?_, fun body e hb he => ?_⟩
  · simp [SharedMount, FscacheBindBlob, FscacheUnbindBlob, he]
  · simp [FscacheUnbindBlob, hb, he]

/-- Witness of C7: a missing file stops `SharedMount` before any request, and a file that
is not a configuration stops `FscacheUnbindBlob` before any request. -/
theorem config_failure_sends_nothing_witness :
    ((SharedMount (sampleWorld 204 "") "/mnt" "boot" "/missing").result
        = some (.wrapped (.lib "open /missing: no such file or directory")
            "failed to get content of daemon config /missing")
      ∧ (SharedMount (sampleWorld 204 "") "/mnt" "boot" "/missing").sent = [])
    ∧ ((FscacheUnbindBlob (sampleWorld 204 "") brokenConfigPath).result
        = some (.wrapped (.lib "unexpected end of JSON input") "unmarshal fscache daemon config")
      ∧ (FscacheUnbindBlob (sampleWorld 204 "") brokenConfigPath).sent = []) :=
  ⟨((config_failure_sends_nothing (sampleWorld 204 "") "/mnt" "boot" "/missing").1
      (.lib "open /missing: no such file or directory") rfl).1,
   (config_failure_sends_nothing (sampleWorld 204 "") "/mnt" "boot" brokenConfigPath).2
      "domain_id: d1" (.lib "unexpected end of JSON input") rfl rfl⟩

/-- Counterexample to C4: status 500 is outside 200..299, yet with a body that decodes
`CheckStatus` returns the decoded Daemon Info and `GetFsMetric` the decoded metric, each
without an error. -/
theorem query_ops_accept_status_500 :
    ¬ (200 ≤ (500 : Int) ∧ (500 : Int) ≤ 299)
      ∧ (CheckStatus (sampleWorld 500 "info") sampleUnmarshalInfo).response
          (sampleWorld 500 "info") = some ⟨500, ⟨"info", none⟩⟩
      ∧ (CheckStatus (sampleWorld 500 "info") sampleUnmarshalInfo).result = .ok "info"
      ∧ (GetFsMetric (sampleWorld 500 "info") sampleDecodeMetric false "sid1").response
          (sampleWorld 500 "info") = some ⟨500, ⟨"info", none⟩⟩
      ∧ (GetFsMetric (sampleWorld 500 "info") sampleDecodeMetric false "sid1").result
          = .ok "info" :=
  ⟨by decide, rfl, rfl, rfl, rfl⟩

/-- C4, amended: the querying operations do not classify a response by its status.  For
every response, whatever its status, `CheckStatus` returns what decoding the body gives:
the Daemon Info when the body is read and decodes, an error otherwise.  For every response
whose status is not 204, inside 200..299 or not, `GetFsMetric` returns what decoding the
body gives: the metric when it decodes, the wrapped decode error otherwise. -/
theorem query_ops_result_is_decoding {DaemonInfo FsMetric : Type} (w : World)
    (unmarshalDaemonInfo : String → Except Err DaemonInfo)
    (decodeFsMetric : Body → Except Err FsMetric) (sharedDaemon : Bool) (sid : String)
    (resp : Response) :
    ((CheckStatus w unmarshalDaemonInfo).response w = some resp →
        (CheckStatus w unmarshalDaemonInfo).result
          = match ioReadAll resp.Body with
            | .error err => .error (.wrapped err "failed to read status response")
            | .ok b => unmarshalDaemonInfo b)
      ∧ ((GetFsMetric w decodeFsMetric sharedDaemon sid).response w = some resp →
          resp.StatusCode ≠ 204 →
          (GetFsMetric w decodeFsMetric sharedDaemon sid).result
            = match decodeFsMetric resp.Body with
              | .error err => .error (.wrapped err "failed to decode FsMetric")
              | .ok m => .ok m) := by
  refine ⟨fun h => CheckStatus_answered w unmarshalDaemonInfo resp h, fun h hs => ?_⟩
  have hs1 : ¬ resp.StatusCode = StatusNoContent := hs
  rw [GetFsMetric_answered w decodeFsMetric sharedDaemon sid resp h]
  simp [hs1]

/-- Witness of the amended C4: under status 404 an empty body does not decode and both
querying operations return errors; the error comes from the decoding, not from the
status. -/
theorem query_ops_result_is_decoding_witness :
    (CheckStatus (sampleWorld 404 "") sampleUnmarshalInfo).result
        = .error (.lib "unexpected end of JSON input")
      ∧ (GetFsMetric (sampleWorld 404 "") sampleDecodeMetric true "sid1").result
        = .error (.wrapped (.lib "EOF") "failed to decode FsMetric") :=
  have h := query_ops_result_is_decoding (sampleWorld 404 "") sampleUnmarshalInfo
    sampleDecodeMetric true "sid1" ⟨404, ⟨"", none⟩⟩
  ⟨h.1 rfl, h.2 rfl (by decide)⟩

theorem metricsURL_shared (sid : String) :
    "http://unix" ++ endpointMetrics ++ "?id=/" ++ sid ++ "/fs"
      = "http://unix/api/v1/metrics?id=/" ++ sid ++ "/fs" := by
  have e : "http://unix" ++ endpointMetrics ++ "?id=/" = "http://unix/api/v1/metrics?id=/" := by
    decide
  rw [e]

theorem metricsURL_plain : "http://unix" ++ endpointMetrics = "http://unix/api/v1/metrics" := by
  decide

theorem mountURL (mp : String) :
    "http://unix" ++ endpointMount ++ "?mountpoint=" ++ mp
      = "http://unix/api/v1/mount?mountpoint=" ++ mp := by
  have e : "http://unix" ++ endpointMount ++ "?mountpoint="
      = "http://unix/api/v1/mount?mountpoint=" := by decide
  rw [e]

/-- Counterexample to C5: for the sid "a", line feed, "b" the URL holds a control character,
`http.NewRequest` rejects it, and `GetFsMetric` in shared mode issues no GET at all. -/
theorem GetFsMetric_control_sid_sends_nothing :
    (GetFsMetric (sampleWorld 200 "metrics") sampleDecodeMetric true "a\nb").sent = []
      ∧ (GetFsMetric (sampleWorld 200 "metrics") sampleDecodeMetric true "a\nb").result
        = .error (.wrapped (.lib "net/url: invalid control character in URL")
            "failed to create GetFsMetric request") :=
  ⟨rfl, rfl⟩

/-- C5, amended: for every sid, `GetFsMetric` in shared mode builds the URL
"http://unix/api/v1/metrics?id=/<sid>/fs" with sid inserted verbatim; when `http.NewRequest`
accepts it, exactly one request is issued, a GET to that URL without body, and when
`http.NewRequest` rejects it no request is issued and the wrapped error is returned.  In
non-shared mode the URL is "http://unix/api/v1/metrics" with no query, and the requests
issued and the result are the same for every sid. -/
theorem GetFsMetric_request {FsMetric : Type} (w : World)
    (decodeFsMetric : Body → Except Err FsMetric) (sid sid1 : String) :
    (w.newRequestErr "GET" ("http://unix/api/v1/metrics?id=/" ++ sid ++ "/fs") = none →
        (GetFsMetric w decodeFsMetric true sid).sent
          = [⟨"GET", "http://unix/api/v1/metrics?id=/" ++ sid ++ "/fs", [], none⟩])
      ∧ (∀ e, w.newRequestErr "GET" ("http://unix/api/v1/metrics?id=/" ++ sid ++ "/fs")
            = some e →
          (GetFsMetric w decodeFsMetric true sid).sent = []
            ∧ (GetFsMetric w decodeFsMetric true sid).result
              = .error (.wrapped e "failed to create GetFsMetric request"))
      ∧ (w.newRequestErr "GET" "http://unix/api/v1/metrics" = none →
          (GetFsMetric w decodeFsMetric false sid).sent
            = [⟨"GET", "http://unix/api/v1/metrics", [], none⟩])
      ∧ (GetFsMetric w decodeFsMetric false sid).sent
          = (GetFsMetric w decodeFsMetric false sid1).sent
      ∧ (GetFsMetric w decodeFsMetric false sid).result
          = (GetFsMetric w decodeFsMetric false sid1).result := by
  refine ⟨fun h => ?_, fun e h => ?_, fun h => ?_, rfl, rfl⟩
  · unfold GetFsMetric NewRequest
    simp only [if_true, metricsURL_shared, MethodGet, h]
    cases w.roundTrip ⟨"GET", "http://unix/api/v1/metrics?id=/" ++ sid ++ "/fs", [], none⟩ with
    | error e => rfl
    | ok r =>
      simp only []
      split
      · rfl
      · split <;> rfl
  · unfold GetFsMetric NewRequest
    simp only [if_true, metricsURL_shared, MethodGet, h, and_self]
  · unfold GetFsMetric NewRequest
    simp only [Bool.false_eq_true, if_false, metricsURL_plain, MethodGet, h]
    cases w.roundTrip ⟨"GET", "http://unix/api/v1/metrics", [], none⟩ with
    | error e => rfl
    | ok r =>
      simp only []
      split
      · rfl
      · split <;> rfl

/-- Witness of the amended C5: for the sid "sid1" the request is accepted and the GET goes
to "http://unix/api/v1/metrics?id=/sid1/fs". -/
theorem GetFsMetric_request_witness :
    (GetFsMetric (sampleWorld 200 "metrics") sampleDecodeMetric true "sid1").sent
      = [⟨"GET", "http://unix/api/v1/metrics?id=/sid1/fs", [], none⟩] :=
  (GetFsMetric_request (sampleWorld 200 "metrics") sampleDecodeMetric "sid1" "sid2").1 rfl

/-- C8, the code at the failing input: with a readable configuration file, the POST of
`SharedMount` carries `Content-Type: application/json`, set by `httpClient.Post`, while the
PUT of `FscacheBindBlob`, built by `http.NewRequest` and sent as it is, carries the
configuration as its body and no `Content-Type` header at all. -/
theorem FscacheBindBlob_put_without_content_type :
    (sampleWorld 204 "").readFile sampleConfigPath = .ok sampleConfig
      ∧ (SharedMount (sampleWorld 204 "") "/mnt" "boot" sampleConfigPath).sent
        = [⟨"POST", "http://unix/api/v1/mount?mountpoint=/mnt",
            [("Content-Type", "application/json")],
            some ("source=boot;config=" ++ sampleConfig)⟩]
      ∧ (FscacheBindBlob (sampleWorld 204 "") sampleConfigPath).sent
        = [⟨"PUT", "http://unix/api/v2/blobs", [], some sampleConfig⟩] :=
  ⟨rfl, rfl, rfl⟩

/-- Counterexample to C10: the configuration file is readable, but the mount point "/mnt"
followed by a line feed makes a URL that `http.NewRequest` rejects, and `SharedMount`
issues no POST at all. -/
theorem SharedMount_control_mountpoint_sends_nothing :
    (sampleWorld 204 "").readFile sampleConfigPath = .ok sampleConfig
      ∧ (SharedMount (sampleWorld 204 "") "/mnt\n" "boot" sampleConfigPath).sent = []
      ∧ (SharedMount (sampleWorld 204 "") "/mnt\n" "boot" sampleConfigPath).result
        = some (.wrapped (.lib "net/url: invalid control character in URL")
            "failed to do HTTP POST to http://unix/api/v1/mount?mountpoint=/mnt\n") :=
  ⟨rfl, rfl, rfl⟩

/-- C10, amended: for every readable configuration file with content `b`, whenever
`http.NewRequest` accepts the request, `FscacheBindBlob` issues exactly one request, a PUT
to "http://unix/api/v2/blobs" whose body is exactly `b`; and whenever the JSON encoding
succeeds and `http.NewRequest` accepts the URL built from `sharedMountPoint`, `SharedMount`
issues exactly one request, a POST to
"http://unix/api/v1/mount?mountpoint=<sharedMountPoint>" whose body is the JSON encoding of
the Mount Request built from `bootstrap` and `b`, in which `b` is the configuration,
unchanged. -/
theorem config_content_is_sent (w : World) (sharedMountPoint bootstrap daemonConfig : String)
    (b : String) (hread : w.readFile daemonConfig = .ok b) :
    (w.newRequestErr "PUT" "http://unix/api/v2/blobs" = none →
        (FscacheBindBlob w daemonConfig).sent
          = [⟨"PUT", "http://unix/api/v2/blobs", [], some b⟩])
      ∧ (∀ body, w.marshalMountRequest (NewMountRequest bootstrap b) = .ok body →
          w.newRequestErr "POST" ("http://unix/api/v1/mount?mountpoint=" ++ sharedMountPoint)
            = none →
          (SharedMount w sharedMountPoint bootstrap daemonConfig).sent
            = [⟨"POST", "http://unix/api/v1/mount?mountpoint=" ++ sharedMountPoint,
                [("Content-Type", "application/json")], some body⟩])
      ∧ (NewMountRequest bootstrap b).Source = bootstrap
      ∧ (NewMountRequest bootstrap b).Config = b := by
  refine ⟨fun h => ?_, fun body hm h => ?_, rfl, rfl⟩
  · unfold FscacheBindBlob NewRequest
    simp only [hread, MethodPut, h]
    cases w.roundTrip ⟨"PUT", "http://unix/api/v2/blobs", [], some b⟩ with
    | error e => rfl
    | ok r =>
      simp only []
      split <;> rfl
  · unfold SharedMount clientPost NewRequest
    simp only [hread, hm, mountURL, MethodPost, h, headerSet, contentType, List.filter_nil]
    cases w.roundTrip ⟨"POST", "http://unix/api/v1/mount?mountpoint=" ++ sharedMountPoint,
        [("Content-Type", "application/json")], some body⟩ with
    | error e => rfl
    | ok r =>
      simp only []
      split <;> rfl

/-- Witness of the amended C10: with the sample configuration file the PUT carries its
content as the whole body. -/
theorem config_content_is_sent_witness :
    (FscacheBindBlob (sampleWorld 204 "") sampleConfigPath).sent
      = [⟨"PUT", "http://unix/api/v2/blobs", [], some sampleConfig⟩] :=
  (config_content_is_sent (sampleWorld 204 "") "/mnt" "boot" sampleConfigPath sampleConfig
    rfl).1 rfl

theorem socketAttempt_eq_none_iff (sock : String) (st : Except Err Nat) :
    socketAttempt sock st = none ↔ isSocket st = true := by
  unfold socketAttempt isSocket
  cases st with
  | error e => simp
  | ok mode => by_cases h : mode &&& ModeSocket = 0 <;> simp [h]

theorem retryLoop_attempts_le (f : Nat → Option Err) (k n : Nat) (last : Option Err) :
    (retryLoop f k n last).2 ≤ n + k := by
  induction k generalizing n last with
  | zero => simp [retryLoop]
  | succ k ih =>
    unfold retryLoop
    cases f n with
    | none => simp
    | some e =>
      have := ih (n + 1) (some e)
      simp only []
      omega

theorem retryLoop_first_success (f : Nat → Option Err) (k n i : Nat) (last : Option Err)
    (hi : i < k) (hok : f (n + i) = none) (hbefore : ∀ j, j < i → f (n + j) ≠ none) :
    retryLoop f k n last = (none, n + i + 1) := by
  induction k generalizing n i last with
  | zero => omega
  | succ k ih =>
    unfold retryLoop
    cases i with
    | zero =>
      simp at hok
      simp [hok]
    | succ i =>
      have h0 := hbefore 0 (by omega)
      simp at h0
      cases hf : f n with
      | none => exact absurd hf h0
      | some e =>
        simp only []
        have := ih (n + 1) i (some e) (by omega)
          (by rw [show n + 1 + i = n + (i + 1) by omega]; exact hok)
          (fun j hj => by
            rw [show n + 1 + j = n + (j + 1) by omega]
            exact hbefore (j + 1) (by omega))
        rw [this]
        simp
        omega

theorem retryLoop_all_fail (f : Nat → Option Err) (k n : Nat) (last : Option Err)
    (hall : ∀ j, j < k + 1 → f (n + j) ≠ none) :
    retryLoop f (k + 1) n last = (f (n + k), n + k + 1) := by
  induction k generalizing n last with
  | zero =>
    unfold retryLoop
    have h0 := hall 0 (by omega)
    simp at h0
    cases hf : f n with
    | none => exact absurd hf h0
    | some e => simp [retryLoop, hf]
  | succ k ih =>
    unfold retryLoop
    have h0 := hall 0 (by omega)
    simp at h0
    cases hf : f n with
    | none => exact absurd hf h0
    | some e =>
      simp only []
      rw [ih (n + 1) (some e) (fun j hj => by
        rw [show n + 1 + j = n + (j + 1) by omega]
        exact hall (j + 1) (by omega))]
      simp
      constructor
      · congr 1; omega
      · omega

/-- C6: with the file system a sequence of stat observations, `WaitUntilSocketExisted`
makes at most 20 attempts.  At the first attempt that observes a socket it returns success
and makes no further attempt.  When none of the 20 attempts observes a socket it makes all
20 and returns the error of the 20th attempt only: the stat error of that attempt, or
"file <sock> is not socket file" when that stat found an entry that is not a socket. -/
theorem WaitUntilSocketExisted_spec (sock : String) (stat : Nat → Except Err Nat) :
    (WaitUntilSocketExisted sock stat).2 ≤ 20
      ∧ (∀ i, i < 20 → isSocket (stat i) = true → (∀ j, j < i → isSocket (stat j) = false) →
          WaitUntilSocketExisted sock stat = (none, i + 1))
      ∧ ((∀ i, i < 20 → isSocket (stat i) = false) →
          WaitUntilSocketExisted sock stat = (socketAttempt sock (stat 19), 20)
            ∧ (∀ e, stat 19 = .error e → WaitUntilSocketExisted sock stat = (some e, 20))
            ∧ (∀ mode, stat 19 = .ok mode →
                WaitUntilSocketExisted sock stat
                  = (some (.plain ("file " ++ sock ++ " is not socket file")), 20))) := by
  refine ⟨?_, fun i hi hs hb => ?_, fun hall => ?_⟩
  · have := retryLoop_attempts_le (fun i => socketAttempt sock (stat i)) 20 0 none
    simpa [WaitUntilSocketExisted, retryDo] using this
  · have := retryLoop_first_success (fun i => socketAttempt sock (stat i)) 20 0 i none hi
      (by simpa [socketAttempt_eq_none_iff] using hs)
      (fun j hj => by
        have := hb j hj
        simp only [Nat.zero_add, ne_eq, socketAttempt_eq_none_iff, this]
        simp)
    simpa [WaitUntilSocketExisted, retryDo] using this
  · have hmain : WaitUntilSocketExisted sock stat = (socketAttempt sock (stat 19), 20) := by
      have := retryLoop_all_fail (fun i => socketAttempt sock (stat i)) 19 0 none
        (fun j hj => by
          have := hall j hj
          simp only [Nat.zero_add, ne_eq, socketAttempt_eq_none_iff, this]
          simp)
      simpa [WaitUntilSocketExisted, retryDo] using this
    refine ⟨hmain, fun e he => ?_, fun mode hm => ?_⟩
    · rw [hmain, he]; rfl
    · have h19 := hall 19 (by omega)
      rw [hm] at h19
      have hz : mode &&& ModeSocket = 0 := by simpa [isSocket] using h19
      rw [hmain, hm]
      simp [socketAttempt, hz]

/-- Witness of C6: when the socket first shows at attempt 3 (the fourth), the wait succeeds
after exactly 4 attempts, the earlier errors being dropped; when no attempt sees a socket,
20 attempts are made and the error is the stat error of the last one, not the
"not socket file" error of the 19 before it. -/
theorem WaitUntilSocketExisted_spec_witness :
    WaitUntilSocketExisted "/run/api.sock" socketAppearsAtThree = (none, 4)
      ∧ WaitUntilSocketExisted "/run/api.sock" socketNeverAppears
        = (some (.lib "stat /run/api.sock: no such file or directory"), 20) :=
  ⟨(WaitUntilSocketExisted_spec "/run/api.sock" socketAppearsAtThree).2.1 3 (by decide)
      (by decide) (by decide),
   ((WaitUntilSocketExisted_spec "/run/api.sock" socketNeverAppears).2.2 (by decide)).2.1
      (.lib "stat /run/api.sock: no such file or directory") rfl⟩

end Nydussdk
